import Mathlib

/-!
Shallow embedding of the OveloAI chatbot backend (`app/main.py`,
`app/ai_brain.py`, `app/lead_capture.py`, `app/config.py`).

The session store is modelled as a function from session identifiers to
optional sessions; the conversation controller `chat_endpoint` is a pure
function from an environment of oracles (generated UUID, timestamps, the
RAG chain output, the SMTP transaction outcome), the current store and the
request to an outcome that records the new store, the HTTP response, the
notification calls made and the number of Answer Generator invocations.
-/

namespace OveloAI

/-- A chat message as stored in `session["message_history"]`. -/
structure Message where
  role : String
  content : String
  timestamp : String
deriving Repr, DecidableEq

/-- The `user_data` dictionary: only the keys `name` and `email` are ever
written by the code, so it is modelled as a record of optional fields. -/
structure UserData where
  name : Option String := none
  email : Option String := none
deriving Repr, DecidableEq

/-- A session record, as created by `get_session` in `main.py`.
`awaiting_action` is `None` or a string in Python, hence `Option String`. -/
structure Session where
  created_at : String
  message_history : List Message
  awaiting_action : Option String
  user_data : UserData
deriving Repr, DecidableEq

/-- The in-memory `sessions` dictionary, as a functional map. -/
abbrev Store := String → Option Session

/-- The fresh session dictionary built inside `get_session`. -/
def freshSession (now : String) : Session :=
  { created_at := now
    message_history := []
    awaiting_action := none
    user_data := {} }

/-- Dictionary update `sessions[session_id] = s`. -/
def updateStore (store : Store) (session_id : String) (s : Session) : Store :=
  fun k => if k = session_id then some s else store k

/-- `get_session` from `main.py`: get or create a session.  The creation
timestamp comes from the caller (the code calls `datetime.now()`). -/
def get_session (store : Store) (session_id : String) (now : String) :
    Store × Session :=
  match store session_id with
  | some s => (store, s)
  | none =>
      (updateStore store session_id (freshSession now), freshSession now)

/-- `settings.LEAD_CAPTURE_PHRASES` from `config.py`. -/
def LEAD_CAPTURE_PHRASES : List String :=
  ["price", "quote", "cost", "contact", "talk to", "meeting", "schedule"]

/-- Whether `needle` occurs at the start of `hay` (on character lists). -/
def startsWithChars : List Char → List Char → Bool
  | _, [] => true
  | [], _ :: _ => false
  | a :: as, b :: bs => a == b && startsWithChars as bs

/-- Whether `needle` occurs somewhere inside `hay` (on character lists):
the Python `needle in hay` substring test. -/
def containsChars : List Char → List Char → Bool
  | [], needle => startsWithChars [] needle
  | hay@(_ :: rest), needle =>
      startsWithChars hay needle || containsChars rest needle

/-- Python `needle in hay` on strings. -/
def strContains (hay needle : String) : Bool :=
  containsChars hay.data needle.data

/-- Python `message.lower()`, as a character-wise lowercase map. -/
def strLower (s : String) : String :=
  ⟨s.data.map Char.toLower⟩

/-- `detect_lead_intent` from `main.py`: lowercase the message and test each
configured phrase for substring membership. -/
def detect_lead_intent (message : String) : Bool :=
  LEAD_CAPTURE_PHRASES.any (fun phrase => strContains (strLower message) phrase)

/-- SMTP configuration and delivery oracle for `lead_capture.py`.  The
`transact` field models the outcome of the connect / starttls / login /
sendmail sequence on the rendered message: `Except.error` is the modelled
Python exception. -/
structure SMTPEnv where
  SMTP_SERVER : Option String
  SMTP_PORT : Nat
  SMTP_USERNAME : Option String
  SMTP_PASSWORD : Option String
  RECEIVER_EMAIL : Option String
  transact : String → Except String Unit

/-- Result of one call to the notification sender: whether the mail was
sent and what was printed. -/
structure SendLog where
  sent : Bool
  log : String
deriving Repr, DecidableEq

/-- Python truthiness of an optional string setting (`None` and the empty
string are falsy), as used by `all([...])` in `send_lead_email`. -/
def truthy : Option String → Bool
  | none => false
  | some s => if s = "" then false else true

/-- The f-string email body built in `send_lead_email`, with the first
message of the history providing the initial intent and timestamp
(default `N/A`). -/
def emailBody (lead_data : UserData) (message_history : List Message) : String :=
  let initial_message :=
    match message_history with
    | [] => "N/A"
    | m :: _ => m.content
  let timestamp :=
    match message_history with
    | [] => "N/A"
    | m :: _ => m.timestamp
  "\n    A new lead has been captured from your AI assistant!\n    \n    Name: "
    ++ lead_data.name.getD "N/A"
    ++ "\n    Email: "
    ++ lead_data.email.getD "N/A"
    ++ "\n    \n    ---\n    Lead Details:\n    Initial Intent: \""
    ++ initial_message
    ++ "\"\n    Time of Capture: "
    ++ timestamp
    ++ "\n    "

/-- `send_lead_email` from `lead_capture.py`.  The return type is
`Except String SendLog` so that a raised exception would be visible to the
caller as `Except.error`; the `try`/`except` around the SMTP transaction is
the `match` that converts a delivery error into an `Except.ok` result. -/
def send_lead_email (env : SMTPEnv) (lead_data : UserData)
    (message_history : List Message) : Except String SendLog :=
  if !(truthy env.SMTP_SERVER && truthy env.SMTP_USERNAME
        && truthy env.SMTP_PASSWORD && truthy env.RECEIVER_EMAIL) then
    Except.ok { sent := false
                log := "SMTP credentials are not fully configured. Email will not be sent." }
  else
    match env.transact (emailBody lead_data message_history) with
    | Except.ok _ => Except.ok { sent := true, log := "Lead email sent successfully!" }
    | Except.error e => Except.ok { sent := false, log := "Failed to send email: " ++ e }

/-- Environment of `get_ai_response` (`ai_brain.py`): whether
`os.path.exists(settings.FAISS_DB_PATH)` holds, the RAG chain output for a
question, and the randomly chosen greeting. -/
structure AIEnv where
  faissExists : Bool
  ragAnswer : String → String
  greeting : String

/-- Result of `get_ai_response`, extended with the number of Answer
Generator (RAG chain) invocations performed. -/
structure AIResult where
  response : String
  confidence : ℚ
  generatorCalls : Nat

/-- `get_ai_response` from `ai_brain.py`: short-circuit with a fixed error
when the FAISS store is missing, otherwise invoke the RAG chain once and
prefix a greeting, with placeholder confidence 0.95. -/
def get_ai_response (env : AIEnv) (message : String) : AIResult :=
  if !env.faissExists then
    { response := "Error: Knowledge base not found. Please ensure your FAISS vector database has been created."
      confidence := 0.0
      generatorCalls := 0 }
  else
    { response := env.greeting ++ " " ++ env.ragAnswer message
      confidence := 0.95
      generatorCalls := 1 }

/-- The request body of `POST /chat`. -/
structure ChatRequest where
  message : String
  session_id : Option String
deriving Repr, DecidableEq

/-- The response body of `POST /chat`. -/
structure ChatResponse where
  response : String
  session_id : String
  confidence : ℚ
  requires_action : Option String
deriving Repr, DecidableEq

/-- Oracles consumed by one call of `chat_endpoint`: the generated UUID,
the three `datetime.now()` readings (session creation, user message,
assistant message), the AI environment and the SMTP environment. -/
structure ChatEnv where
  uuid : String
  now0 : String
  now1 : String
  now2 : String
  ai : AIEnv
  smtp : SMTPEnv

/-- What one branch of the controller decides: the response text,
confidence, `requires_action`, the new `awaiting_action` and `user_data`,
the notification calls made (arguments passed to `send_lead_email`) and
the number of Answer Generator invocations. -/
structure StepResult where
  response_text : String
  confidence : ℚ
  requires_action : Option String
  awaiting : Option String
  user_data : UserData
  notifications : List (UserData × List Message)
  generatorCalls : Nat

/-- The observable outcome of one `chat_endpoint` call: the updated store,
the HTTP response, the notification calls with their arguments, the
results of those calls, and the Answer Generator invocation count. -/
structure ChatOutcome where
  store : Store
  response : ChatResponse
  notifications : List (UserData × List Message)
  mail : List (Except String SendLog)
  generatorCalls : Nat

/-- Python `request_data.session_id or str(uuid.uuid4())`: `None` and the
empty string are falsy, so both fall back to the generated UUID. -/
def resolve_session_id (session_id : Option String) (uuid : String) : String :=
  match session_id with
  | some s => if s = "" then uuid else s
  | none => uuid

/-- The branch decision of `chat_endpoint` (`main.py`), evaluated in the
source order: continue capture (name step), continue capture (email step,
with the `@` and `.` check), start capture on lead intent, RAG fallback.
`history1` is the history with the inbound user message already appended,
which is what the notification sender receives. -/
def chat_step (env : ChatEnv) (session : Session) (message : String)
    (history1 : List Message) : StepResult :=
  if session.awaiting_action = some "get_name" then
    { response_text := "Thanks " ++ message ++ "! What\x27s your email address?"
      confidence := 0.9
      requires_action := some "get_email"
      awaiting := some "get_email"
      user_data := { session.user_data with name := some message }
      notifications := []
      generatorCalls := 0 }
  else if session.awaiting_action = some "get_email" then
    if strContains message "@" && strContains message "." then
      { response_text := "Perfect! We\x27ll contact you at " ++ message ++ " within 24 hours! 🎉"
        confidence := 1.0
        requires_action := none
        awaiting := none
        user_data := { session.user_data with email := some message }
        notifications := [({ session.user_data with email := some message }, history1)]
        generatorCalls := 0 }
    else
      { response_text := "That doesn\x27t look like a valid email. Can you please try again?"
        confidence := 0.5
        requires_action := some "get_email"
        awaiting := some "get_email"
        user_data := session.user_data
        notifications := []
        generatorCalls := 0 }
  else if detect_lead_intent message then
    { response_text := "Awesome! Let\x27s get you started. What\x27s your name?"
      confidence := 0.9
      requires_action := some "get_name"
      awaiting := some "get_name"
      user_data := session.user_data
      notifications := []
      generatorCalls := 0 }
  else
    let ai := get_ai_response env.ai message
    { response_text := ai.response
      confidence := ai.confidence
      requires_action := none
      awaiting := session.awaiting_action
      user_data := session.user_data
      notifications := []
      generatorCalls := ai.generatorCalls }

/-- `chat_endpoint` from `main.py`: resolve the session identifier, get or
create the session, append the inbound user message, run the branch
decision, perform the notification calls it requested, append the outbound
assistant message and write the session back. -/
def chat_endpoint (env : ChatEnv) (store : Store) (request_data : ChatRequest) :
    ChatOutcome :=
  let session_id := resolve_session_id request_data.session_id env.uuid
  let p := get_session store session_id env.now0
  let history1 := p.2.message_history
    ++ [{ role := "user", content := request_data.message, timestamp := env.now1 }]
  let r := chat_step env p.2 request_data.message history1
  let history2 := history1
    ++ [{ role := "assistant", content := r.response_text, timestamp := env.now2 }]
  let finalSession : Session :=
    { p.2 with
        message_history := history2
        awaiting_action := r.awaiting
        user_data := r.user_data }
  { store := updateStore p.1 session_id finalSession
    response :=
      { response := r.response_text
        session_id := session_id
        confidence := r.confidence
        requires_action := r.requires_action }
    notifications := r.notifications
    mail := r.notifications.map (fun c => send_lead_email env.smtp c.1 c.2)
    generatorCalls := r.generatorCalls }

/-- Iterated chat calls against one session identifier. -/
def chatMany (sid : String) : List (ChatEnv × String) → Store → Store
  | [], store => store
  | (env, msg) :: rest, store =>
      chatMany sid rest
        (chat_endpoint env store { message := msg, session_id := some sid }).store

/-! Concrete fixtures used by witness theorems. -/

/-- A fully configured SMTP environment whose transaction succeeds. -/
def wSMTP : SMTPEnv :=
  { SMTP_SERVER := some "smtp.example.com"
    SMTP_PORT := 587
    SMTP_USERNAME := some "user"
    SMTP_PASSWORD := some "pw"
    RECEIVER_EMAIL := some "owner@example.com"
    transact := fun _ => Except.ok () }

/-- An AI environment with no FAISS store on disk. -/
def wAI : AIEnv :=
  { faissExists := false
    ragAnswer := fun _ => "generated answer"
    greeting := "Hello!" }

/-- A concrete chat environment. -/
def wEnv : ChatEnv :=
  { uuid := "uuid-1", now0 := "t0", now1 := "t1", now2 := "t2"
    ai := wAI, smtp := wSMTP }

/-- A session waiting for the name step. -/
def wSessName : Session :=
  { created_at := "c0", message_history := [], awaiting_action := some "get_name"
    user_data := {} }

/-- A session waiting for the email step, name already captured. -/
def wSessEmail : Session :=
  { created_at := "c0", message_history := [], awaiting_action := some "get_email"
    user_data := { name := some "Alice" } }

/-- A session in the idle state. -/
def wSessNone : Session :=
  { created_at := "c0", message_history := [], awaiting_action := none
    user_data := {} }

/-- A concrete store holding the three fixture sessions. -/
def wStore : Store := fun k =>
  if k = "s1" then some wSessName
  else if k = "s2" then some wSessEmail
  else if k = "s3" then some wSessNone
  else none

/-- Claim C9: `get_session` creates a session with `awaiting_action = none`,
empty history and empty `user_data` for an absent identifier (adding it to
the store) and returns an existing session with the store unchanged. -/
theorem get_session_get_or_create (store : Store) (sid now : String) :
    (store sid = none →
      get_session store sid now
          = (updateStore store sid (freshSession now), freshSession now)
        ∧ (freshSession now).awaiting_action = none
        ∧ (freshSession now).message_history = []
        ∧ (freshSession now).user_data = {})
    ∧ ∀ s, store sid = some s → get_session store sid now = (store, s) := by
  constructor
  · intro h
    simp [get_session, h, freshSession]
  · intro s h
    simp [get_session, h]

/-- Witness for C9 at a concrete store: one absent and one present key. -/
theorem get_session_get_or_create_witness :
    wStore "fresh" = none
    ∧ get_session wStore "fresh" "t0"
        = (updateStore wStore "fresh" (freshSession "t0"), freshSession "t0")
    ∧ wStore "s1" = some wSessName
    ∧ get_session wStore "s1" "t0" = (wStore, wSessName) :=
  ⟨by decide,
   ((get_session_get_or_create wStore "fresh" "t0").1 (by decide)).1,
   by decide,
   (get_session_get_or_create wStore "s1" "t0").2 wSessName (by decide)⟩

/-- Claim C3: with `awaiting_action = get_name`, any message is stored
verbatim as `user_data.name`, the state moves to `get_email`, the response
echoes the text in the fixed acknowledgment template, confidence is 0.9 and
`requires_action` is `get_email`. -/
theorem chat_name_step (env : ChatEnv) (store : Store) (sid msg : String)
    (sess : Session) (hsid : ¬ sid = "") (hs : store sid = some sess)
    (ha : sess.awaiting_action = some "get_name") :
    let out := chat_endpoint env store { message := msg, session_id := some sid }
    out.store sid = some { sess with
        message_history := sess.message_history
          ++ [{ role := "user", content := msg, timestamp := env.now1 },
              { role := "assistant"
                content := "Thanks " ++ msg ++ "! What\x27s your email address?"
                timestamp := env.now2 }]
        awaiting_action := some "get_email"
        user_data := { sess.user_data with name := some msg } }
    ∧ out.response.response = "Thanks " ++ msg ++ "! What\x27s your email address?"
    ∧ out.response.confidence = 0.9
    ∧ out.response.requires_action = some "get_email" := by
  simp [chat_endpoint, resolve_session_id, get_session, chat_step, updateStore,
    hsid, hs, ha]

/-- Witness for C3 at a concrete session and message. -/
theorem chat_name_step_witness :
    ¬ ("s1" : String) = ""
    ∧ wStore "s1" = some wSessName
    ∧ wSessName.awaiting_action = some "get_name"
    ∧ (chat_endpoint wEnv wStore { message := "Bob", session_id := some "s1" }).response.response
        = "Thanks Bob! What\x27s your email address?"
    ∧ (chat_endpoint wEnv wStore { message := "Bob", session_id := some "s1" }).response.confidence
        = 0.9 :=
  ⟨by decide, by decide, by decide,
   (chat_name_step wEnv wStore "s1" "Bob" wSessName (by decide) (by decide) (by decide)).2.1,
   (chat_name_step wEnv wStore "s1" "Bob" wSessName (by decide) (by decide) (by decide)).2.2.1⟩

/-- Claim C1: with `awaiting_action = get_email` and a message containing
both `@` and `.`, the message is stored verbatim as `user_data.email`,
`awaiting_action` resets to `none`, the response is the fixed confirmation
template embedding the text, confidence is 1.0, `requires_action` is null,
and exactly one notification call is made, receiving the updated
`user_data` and the history including the inbound user message. -/
theorem chat_email_success (env : ChatEnv) (store : Store) (sid msg : String)
    (sess : Session) (hsid : ¬ sid = "") (hs : store sid = some sess)
    (ha : sess.awaiting_action = some "get_email")
    (hat : strContains msg "@" = true) (hdot : strContains msg "." = true) :
    let out := chat_endpoint env store { message := msg, session_id := some sid }
    out.store sid = some { sess with
        message_history := sess.message_history
          ++ [{ role := "user", content := msg, timestamp := env.now1 },
              { role := "assistant"
                content := "Perfect! We\x27ll contact you at " ++ msg ++ " within 24 hours! 🎉"
                timestamp := env.now2 }]
        awaiting_action := none
        user_data := { sess.user_data with email := some msg } }
    ∧ out.response.response
        = "Perfect! We\x27ll contact you at " ++ msg ++ " within 24 hours! 🎉"
    ∧ out.response.confidence = 1.0
    ∧ out.response.requires_action = none
    ∧ out.notifications
        = [({ sess.user_data with email := some msg },
            sess.message_history
              ++ [{ role := "user", content := msg, timestamp := env.now1 }])]
    ∧ out.mail
        = [send_lead_email env.smtp { sess.user_data with email := some msg }
            (sess.message_history
              ++ [{ role := "user", content := msg, timestamp := env.now1 }])] := by
  simp [chat_endpoint, resolve_session_id, get_session, chat_step, updateStore,
    hsid, hs, ha, hat, hdot]

/-- Witness for C1 at the concrete message `a@b.c`. -/
theorem chat_email_success_witness :
    ¬ ("s2" : String) = ""
    ∧ wStore "s2" = some wSessEmail
    ∧ wSessEmail.awaiting_action = some "get_email"
    ∧ strContains "a@b.c" "@" = true
    ∧ strContains "a@b.c" "." = true
    ∧ (chat_endpoint wEnv wStore { message := "a@b.c", session_id := some "s2" }).response.confidence
        = 1.0
    ∧ (chat_endpoint wEnv wStore { message := "a@b.c", session_id := some "s2" }).notifications
        = [({ name := some "Alice", email := some "a@b.c" },
            [{ role := "user", content := "a@b.c", timestamp := "t1" }])] :=
  ⟨by decide, by decide, by decide, by decide, by decide,
   (chat_email_success wEnv wStore "s2" "a@b.c" wSessEmail (by decide) (by decide)
      (by decide) (by decide) (by decide)).2.2.1,
   (chat_email_success wEnv wStore "s2" "a@b.c" wSessEmail (by decide) (by decide)
      (by decide) (by decide) (by decide)).2.2.2.2.1⟩

/-- Claim C2: with `awaiting_action = get_email` and a message lacking `@`
or lacking `.`, the session keeps `awaiting_action = get_email`,
`user_data` is unchanged, the response is the fixed retry prompt with
confidence 0.5 and `requires_action = get_email`, no notification is made,
and the only other session mutation is the pair of history appends. -/
theorem chat_email_retry (env : ChatEnv) (store : Store) (sid msg : String)
    (sess : Session) (hsid : ¬ sid = "") (hs : store sid = some sess)
    (ha : sess.awaiting_action = some "get_email")
    (hbad : strContains msg "@" = false ∨ strContains msg "." = false) :
    let out := chat_endpoint env store { message := msg, session_id := some sid }
    out.store sid = some { sess with
        message_history := sess.message_history
          ++ [{ role := "user", content := msg, timestamp := env.now1 },
              { role := "assistant"
                content := "That doesn\x27t look like a valid email. Can you please try again?"
                timestamp := env.now2 }]
        awaiting_action := some "get_email" }
    ∧ out.response.response
        = "That doesn\x27t look like a valid email. Can you please try again?"
    ∧ out.response.confidence = 0.5
    ∧ out.response.requires_action = some "get_email"
    ∧ out.notifications = [] := by
  rcases hbad with hbad | hbad <;>
    simp [chat_endpoint, resolve_session_id, get_session, chat_step, updateStore,
      hsid, hs, ha, hbad]

/-- Witness for C2 at the concrete message `not an email`. -/
theorem chat_email_retry_witness :
    ¬ ("s2" : String) = ""
    ∧ wStore "s2" = some wSessEmail
    ∧ wSessEmail.awaiting_action = some "get_email"
    ∧ strContains "not an email" "@" = false
    ∧ (chat_endpoint wEnv wStore { message := "not an email", session_id := some "s2" }).response.confidence
        = 0.5
    ∧ (chat_endpoint wEnv wStore { message := "not an email", session_id := some "s2" }).response.requires_action
        = some "get_email" :=
  ⟨by decide, by decide, by decide, by decide,
   (chat_email_retry wEnv wStore "s2" "not an email" wSessEmail (by decide) (by decide)
      (by decide) (Or.inl (by decide))).2.2.1,
   (chat_email_retry wEnv wStore "s2" "not an email" wSessEmail (by decide) (by decide)
      (by decide) (Or.inl (by decide))).2.2.2.1⟩

/-- The empty session store. -/
def wEmpty : Store := fun _ => none

/-- Counterexample to C4 as stated: the message `what is your pricing?`
contains no configured trigger phrase (in particular `price` is not a
substring of `pricing`), so on a fresh session it does not take the
start-capture branch: with the knowledge store unbuilt it produces the RAG
error path with `requires_action = none` and confidence 0. -/
theorem chat_pricing_not_lead_intent :
    detect_lead_intent "what is your pricing?" = false
    ∧ (chat_endpoint wEnv wEmpty
        { message := "what is your pricing?", session_id := none }).response.requires_action
        = none
    ∧ (chat_endpoint wEnv wEmpty
        { message := "what is your pricing?", session_id := none }).response.response
        ≠ "Awesome! Let\x27s get you started. What\x27s your name?" := by
  refine ⟨by decide, ?_, ?_⟩ <;> decide

/-- Claim C4 (amended): with `awaiting_action = none` and a message whose
lowercased form contains a configured trigger phrase as a substring, the
chat call sets `awaiting_action = get_name`, responds with the fixed name
prompt, confidence 0.9 and `requires_action = get_name`; the message
`what is your price?` (which contains `price`) takes this branch. -/
theorem chat_start_capture (env : ChatEnv) (store : Store) (sid msg : String)
    (sess : Session) (hsid : ¬ sid = "") (hs : store sid = some sess)
    (ha : sess.awaiting_action = none)
    (hint : detect_lead_intent msg = true) :
    let out := chat_endpoint env store { message := msg, session_id := some sid }
    out.store sid = some { sess with
        message_history := sess.message_history
          ++ [{ role := "user", content := msg, timestamp := env.now1 },
              { role := "assistant"
                content := "Awesome! Let\x27s get you started. What\x27s your name?"
                timestamp := env.now2 }]
        awaiting_action := some "get_name" }
    ∧ out.response.response = "Awesome! Let\x27s get you started. What\x27s your name?"
    ∧ out.response.confidence = 0.9
    ∧ out.response.requires_action = some "get_name" := by
  simp [chat_endpoint, resolve_session_id, get_session, chat_step, updateStore,
    hsid, hs, ha, hint]

/-- Witness for the amended C4 at the message `what is your price?`. -/
theorem chat_start_capture_witness :
    ¬ ("s3" : String) = ""
    ∧ wStore "s3" = some wSessNone
    ∧ wSessNone.awaiting_action = none
    ∧ detect_lead_intent "what is your price?" = true
    ∧ (chat_endpoint wEnv wStore { message := "what is your price?", session_id := some "s3" }).response.requires_action
        = some "get_name"
    ∧ (chat_endpoint wEnv wStore { message := "what is your price?", session_id := some "s3" }).response.confidence
        = 0.9 :=
  ⟨by decide, by decide, by decide, by decide,
   (chat_start_capture wEnv wStore "s3" "what is your price?" wSessNone (by decide)
      (by decide) (by decide) (by decide)).2.2.2,
   (chat_start_capture wEnv wStore "s3" "what is your price?" wSessNone (by decide)
      (by decide) (by decide) (by decide)).2.2.1⟩

/-- Claim C5: when the message reaches the retrieval fallback (session not
in a capture state, no trigger phrase) and the FAISS store path does not
exist, the response is exactly the fixed knowledge-base error string with
confidence 0.0 and the Answer Generator is never invoked. -/
theorem chat_kb_missing (env : ChatEnv) (store : Store) (req : ChatRequest)
    (hfaiss : env.ai.faissExists = false)
    (ha : (get_session store (resolve_session_id req.session_id env.uuid) env.now0).2.awaiting_action
        = none)
    (hint : detect_lead_intent req.message = false) :
    let out := chat_endpoint env store req
    out.response.response
        = "Error: Knowledge base not found. Please ensure your FAISS vector database has been created."
    ∧ out.response.confidence = 0.0
    ∧ out.generatorCalls = 0
    ∧ out.notifications = [] := by
  simp [chat_endpoint, chat_step, get_ai_response, ha, hint, hfaiss]

/-- Witness for C5: a fresh session asking `how does your automation
work?` against an unbuilt knowledge store. -/
theorem chat_kb_missing_witness :
    wEnv.ai.faissExists = false
    ∧ (get_session wEmpty
        (resolve_session_id (none : Option String) wEnv.uuid) wEnv.now0).2.awaiting_action
        = none
    ∧ detect_lead_intent "how does your automation work?" = false
    ∧ (chat_endpoint wEnv wEmpty
        { message := "how does your automation work?", session_id := none }).response.response
        = "Error: Knowledge base not found. Please ensure your FAISS vector database has been created."
    ∧ (chat_endpoint wEnv wEmpty
        { message := "how does your automation work?", session_id := none }).response.confidence
        = 0.0 :=
  ⟨by decide, by decide, by decide,
   (chat_kb_missing wEnv wEmpty
      { message := "how does your automation work?", session_id := none }
      (by decide) (by decide) (by decide)).1,
   (chat_kb_missing wEnv wEmpty
      { message := "how does your automation work?", session_id := none }
      (by decide) (by decide) (by decide)).2.1⟩

/-- `get_session` on a present key returns the stored session unchanged. -/
lemma get_session_present (store : Store) (sid now : String) (s : Session)
    (h : store sid = some s) : get_session store sid now = (store, s) := by
  simp [get_session, h]

/-- `get_session` on an absent key installs and returns a fresh session. -/
lemma get_session_absent (store : Store) (sid now : String)
    (h : store sid = none) :
    get_session store sid now
      = (updateStore store sid (freshSession now), freshSession now) := by
  simp [get_session, h]

/-- Reading back the key just written. -/
lemma updateStore_same (store : Store) (sid : String) (s : Session) :
    updateStore store sid s sid = some s := by
  simp [updateStore]

/-- Reading a different key than the one written. -/
lemma updateStore_other (store : Store) (sid k : String) (s : Session)
    (h : ¬ k = sid) : updateStore store sid s k = store k := by
  simp [updateStore, h]

/-- The three legal controller states. -/
def validAwaiting (a : Option String) : Prop :=
  a = none ∨ a = some "get_name" ∨ a = some "get_email"

instance (a : Option String) : Decidable (validAwaiting a) := by
  unfold validAwaiting; infer_instance

/-- Every session in the store has a legal `awaiting_action`. -/
def storeValid (store : Store) : Prop :=
  ∀ sid sess, store sid = some sess → validAwaiting sess.awaiting_action

/-- Every branch of the controller leaves a legal `awaiting_action`,
assuming the incoming one was legal. -/
lemma validAwaiting_chat_step (env : ChatEnv) (s : Session) (m : String)
    (h1 : List Message) (hv : validAwaiting s.awaiting_action) :
    validAwaiting (chat_step env s m h1).awaiting := by
  unfold chat_step
  split
  · simp [validAwaiting]
  · split
    · split
      · simp [validAwaiting]
      · simp [validAwaiting]
    · split
      · simp [validAwaiting]
      · simpa [validAwaiting] using hv

/-- The session returned by `get_session` has a legal `awaiting_action`
when the store is valid (a fresh session starts at `none`). -/
lemma validAwaiting_get_session (store : Store) (sid now : String)
    (hinv : storeValid store) :
    validAwaiting (get_session store sid now).2.awaiting_action := by
  cases hss : store sid with
  | some s =>
      rw [get_session_present store sid now s hss]
      exact hinv sid s hss
  | none =>
      rw [get_session_absent store sid now hss]
      simp [freshSession, validAwaiting]

/-- `get_session` preserves validity of the whole store. -/
lemma storeValid_get_session (store : Store) (sid now : String)
    (hinv : storeValid store) :
    storeValid (get_session store sid now).1 := by
  cases hss : store sid with
  | some s =>
      rw [get_session_present store sid now s hss]
      exact hinv
  | none =>
      intro k sess hk
      simp only [get_session_absent store sid now hss] at hk
      by_cases hks : k = sid
      · subst hks
        rw [updateStore_same] at hk
        injection hk with hk
        subst hk
        simp [freshSession, validAwaiting]
      · rw [updateStore_other store sid k _ hks] at hk
        exact hinv k sess hk

/-- Claim C6: a newly created session starts with `awaiting_action = none`,
and one chat call maps a store in which every session has
`awaiting_action` in {none, get_name, get_email} to another such store. -/
theorem chat_awaiting_invariant (env : ChatEnv) (store : Store)
    (req : ChatRequest) (now : String) (hinv : storeValid store) :
    validAwaiting (freshSession now).awaiting_action
    ∧ storeValid (chat_endpoint env store req).store := by
  refine ⟨by simp [freshSession, validAwaiting], ?_⟩
  intro sid sess h
  simp only [chat_endpoint] at h
  by_cases hc : sid = resolve_session_id req.session_id env.uuid
  · have hstep := validAwaiting_chat_step env
      (get_session store (resolve_session_id req.session_id env.uuid) env.now0).2
      req.message
      ((get_session store (resolve_session_id req.session_id env.uuid) env.now0).2.message_history
        ++ [{ role := "user", content := req.message, timestamp := env.now1 }])
      (validAwaiting_get_session store (resolve_session_id req.session_id env.uuid) env.now0 hinv)
    subst hc
    rw [updateStore_same] at h
    injection h with h
    subst h
    simpa using hstep
  · rw [updateStore_other _ _ _ _ hc] at h
    exact storeValid_get_session store (resolve_session_id req.session_id env.uuid)
      env.now0 hinv sid sess h

/-- Witness for C6 at the empty store (vacuously valid) and a concrete
request. -/
theorem chat_awaiting_invariant_witness :
    storeValid wEmpty
    ∧ validAwaiting (freshSession "t0").awaiting_action
    ∧ storeValid (chat_endpoint wEnv wEmpty
        { message := "hello", session_id := some "s9" }).store :=
  ⟨fun _ _ h => by simp [wEmpty] at h,
   (chat_awaiting_invariant wEnv wEmpty { message := "hello", session_id := some "s9" } "t0"
      (fun _ _ h => by simp [wEmpty] at h)).1,
   (chat_awaiting_invariant wEnv wEmpty { message := "hello", session_id := some "s9" } "t0"
      (fun _ _ h => by simp [wEmpty] at h)).2⟩

/-- A non-empty session identifier is kept as sent. -/
lemma resolve_some (sid uuid : String) (h : ¬ sid = "") :
    resolve_session_id (some sid) uuid = sid := by
  simp [resolve_session_id, h]

/-- The full session written back by one chat call under the resolved
identifier: the original session with the two history entries appended and
the branch decision applied to `awaiting_action` and `user_data`. -/
lemma chat_store_final (env : ChatEnv) (store : Store) (sid msg : String)
    (hsid : ¬ sid = "") :
    (chat_endpoint env store { message := msg, session_id := some sid }).store sid
      = some { (get_session store sid env.now0).2 with
          message_history :=
            (get_session store sid env.now0).2.message_history
              ++ [{ role := "user", content := msg, timestamp := env.now1 },
                  { role := "assistant"
                    content := (chat_endpoint env store
                        { message := msg, session_id := some sid }).response.response
                    timestamp := env.now2 }]
          awaiting_action := (chat_step env (get_session store sid env.now0).2 msg
              ((get_session store sid env.now0).2.message_history
                ++ [{ role := "user", content := msg, timestamp := env.now1 }])).awaiting
          user_data := (chat_step env (get_session store sid env.now0).2 msg
              ((get_session store sid env.now0).2.message_history
                ++ [{ role := "user", content := msg, timestamp := env.now1 }])).user_data } := by
  simp [chat_endpoint, resolve_some sid env.uuid hsid, updateStore_same,
    List.append_assoc]

/-- Claim C7: every chat call appends exactly the inbound user message and
then the outbound assistant message to the touched session's history, and
consequently N chat calls against one session add exactly 2N entries. -/
theorem chat_history_invariant :
    (∀ (env : ChatEnv) (store : Store) (sid msg : String), ¬ sid = "" →
      ∃ s, (chat_endpoint env store { message := msg, session_id := some sid }).store sid
          = some s
        ∧ s.message_history
            = (get_session store sid env.now0).2.message_history
              ++ [{ role := "user", content := msg, timestamp := env.now1 },
                  { role := "assistant"
                    content := (chat_endpoint env store
                        { message := msg, session_id := some sid }).response.response
                    timestamp := env.now2 }])
    ∧ ∀ (reqs : List (ChatEnv × String)) (store : Store) (sid : String)
        (sess : Session), ¬ sid = "" → store sid = some sess →
        ∃ s, chatMany sid reqs store sid = some s
          ∧ s.message_history.length
              = sess.message_history.length + 2 * reqs.length := by
  constructor
  · intro env store sid msg hsid
    exact ⟨_, chat_store_final env store sid msg hsid, rfl⟩
  · intro reqs
    induction reqs with
    | nil =>
        intro store sid sess hsid hs
        exact ⟨sess, hs, by simp [chatMany]⟩
    | cons head tail ih =>
        intro store sid sess hsid hs
        obtain ⟨env, msg⟩ := head
        have h1 := chat_store_final env store sid msg hsid
        rw [get_session_present store sid env.now0 sess hs] at h1
        obtain ⟨s, hss, hlen⟩ :=
          ih (chat_endpoint env store { message := msg, session_id := some sid }).store
            sid _ hsid h1
        refine ⟨s, by simpa [chatMany] using hss, ?_⟩
        rw [hlen]
        simp [List.length_append]
        ring

/-- Witness for C7: one call on a fresh-but-present session and a two-call
run, both at concrete inputs. -/
theorem chat_history_invariant_witness :
    ¬ ("s3" : String) = ""
    ∧ wStore "s3" = some wSessNone
    ∧ (∃ s, (chat_endpoint wEnv wStore { message := "hi", session_id := some "s3" }).store "s3"
          = some s
        ∧ s.message_history
            = (get_session wStore "s3" wEnv.now0).2.message_history
              ++ [{ role := "user", content := "hi", timestamp := wEnv.now1 },
                  { role := "assistant"
                    content := (chat_endpoint wEnv wStore
                        { message := "hi", session_id := some "s3" }).response.response
                    timestamp := wEnv.now2 }])
    ∧ (∃ s, chatMany "s3" [(wEnv, "hi"), (wEnv, "price")] wStore "s3" = some s
        ∧ s.message_history.length = wSessNone.message_history.length + 2 * 2) :=
  ⟨by decide, by decide,
   chat_history_invariant.1 wEnv wStore "s3" "hi" (by decide),
   chat_history_invariant.2 [(wEnv, "hi"), (wEnv, "price")] wStore "s3" wSessNone
     (by decide) (by decide)⟩

/-- The branch decision only depends on the AI part of the environment
(the SMTP configuration is used solely to perform the notification). -/
lemma chat_step_congr (e1 e2 : ChatEnv) (hai : e1.ai = e2.ai) (s : Session)
    (m : String) (h1 : List Message) :
    chat_step e1 s m h1 = chat_step e2 s m h1 := by
  unfold chat_step
  rw [hai]

/-- A fully unconfigured SMTP environment whose transaction would fail. -/
def wSMTPBad : SMTPEnv :=
  { SMTP_SERVER := none
    SMTP_PORT := 587
    SMTP_USERNAME := none
    SMTP_PASSWORD := none
    RECEIVER_EMAIL := none
    transact := fun _ => Except.error "connection refused" }

/-- Claim C8: `send_lead_email` never raises to its caller — missing SMTP
configuration and any delivery failure produce a logged `Except.ok`
result — and the chat response, store and notification arguments are
entirely independent of the SMTP environment, so the email-success path
completes identically whether or not the mail was sent. -/
theorem send_lead_email_never_raises :
    (∀ (env : SMTPEnv) (ld : UserData) (h : List Message),
      ∃ r, send_lead_email env ld h = Except.ok r)
    ∧ ∀ (e1 e2 : ChatEnv) (store : Store) (req : ChatRequest),
        e1.uuid = e2.uuid → e1.now0 = e2.now0 → e1.now1 = e2.now1 →
        e1.now2 = e2.now2 → e1.ai = e2.ai →
        (chat_endpoint e1 store req).response = (chat_endpoint e2 store req).response
        ∧ (chat_endpoint e1 store req).store = (chat_endpoint e2 store req).store
        ∧ (chat_endpoint e1 store req).notifications
            = (chat_endpoint e2 store req).notifications := by
  constructor
  · intro env ld h
    unfold send_lead_email
    split
    · exact ⟨_, rfl⟩
    · split
      · exact ⟨_, rfl⟩
      · exact ⟨_, rfl⟩
  · intro e1 e2 store req huuid hnow0 hnow1 hnow2 hai
    have hstep : ∀ (s : Session) (m : String) (h1 : List Message),
        chat_step e1 s m h1 = chat_step e2 s m h1 :=
      fun s m h1 => chat_step_congr e1 e2 hai s m h1
    refine ⟨?_, ?_, ?_⟩ <;>
      simp only [chat_endpoint, huuid, hnow0, hnow1, hnow2, hstep]

/-- Witness for C8: a failing-delivery environment still returns
`Except.ok`, and swapping the SMTP environment leaves the response of a
successful email capture unchanged. -/
theorem send_lead_email_never_raises_witness :
    (∃ r, send_lead_email wSMTPBad { name := some "Alice", email := some "a@b.c" } []
        = Except.ok r)
    ∧ wEnv.uuid = ({ wEnv with smtp := wSMTPBad } : ChatEnv).uuid
    ∧ (chat_endpoint wEnv wStore { message := "a@b.c", session_id := some "s2" }).response
        = (chat_endpoint { wEnv with smtp := wSMTPBad } wStore
            { message := "a@b.c", session_id := some "s2" }).response :=
  ⟨(send_lead_email_never_raises.1 wSMTPBad
      { name := some "Alice", email := some "a@b.c" } []),
   rfl,
   (send_lead_email_never_raises.2 wEnv { wEnv with smtp := wSMTPBad } wStore
      { message := "a@b.c", session_id := some "s2" }
      rfl rfl rfl rfl rfl).1⟩

/-- `get_session` never changes store entries other than the looked-up
key. -/
lemma get_session_fst_other (store : Store) (sid now k : String)
    (h : ¬ k = sid) : (get_session store sid now).1 k = store k := by
  cases hss : store sid with
  | some s => rw [get_session_present store sid now s hss]
  | none =>
      simp only [get_session_absent store sid now hss]
      rw [updateStore_other _ _ _ _ h]

/-- Claim C10: a request carrying the empty-string session identifier is
handled exactly like one carrying no identifier: the generated UUID keys
the (fresh) session, is returned in the response, and the empty string
never becomes a key of the store. -/
theorem chat_empty_session_id (env : ChatEnv) (store : Store) (msg : String) :
    chat_endpoint env store { message := msg, session_id := some "" }
      = chat_endpoint env store { message := msg, session_id := none }
    ∧ (chat_endpoint env store { message := msg, session_id := some "" }).response.session_id
        = env.uuid
    ∧ (store env.uuid = none →
        ∃ s, (chat_endpoint env store { message := msg, session_id := some "" }).store env.uuid
            = some s
          ∧ s.created_at = env.now0
          ∧ s.message_history
              = [{ role := "user", content := msg, timestamp := env.now1 },
                 { role := "assistant"
                   content := (chat_endpoint env store
                       { message := msg, session_id := some "" }).response.response
                   timestamp := env.now2 }])
    ∧ (¬ env.uuid = "" →
        (chat_endpoint env store { message := msg, session_id := some "" }).store ""
          = store "") := by
  have hres : resolve_session_id (some "") env.uuid = env.uuid := by
    simp [resolve_session_id]
  refine ⟨rfl, rfl, ?_, ?_⟩
  · intro h
    refine ⟨{ created_at := env.now0
              message_history :=
                [{ role := "user", content := msg, timestamp := env.now1 },
                 { role := "assistant"
                   content := (chat_endpoint env store
                       { message := msg, session_id := some "" }).response.response
                   timestamp := env.now2 }]
              awaiting_action := (chat_step env (freshSession env.now0) msg
                  [{ role := "user", content := msg, timestamp := env.now1 }]).awaiting
              user_data := (chat_step env (freshSession env.now0) msg
                  [{ role := "user", content := msg, timestamp := env.now1 }]).user_data },
      ?_, rfl, rfl⟩
    simp [chat_endpoint, hres, get_session_absent store env.uuid env.now0 h,
      updateStore_same, freshSession]
  · intro h
    have hne : ¬ ("" : String) = env.uuid := fun he => h he.symm
    simp only [chat_endpoint, hres]
    rw [updateStore_other _ _ _ _ hne,
      get_session_fst_other store env.uuid env.now0 "" hne]

/-- Witness for C10 at a concrete store with the UUID absent. -/
theorem chat_empty_session_id_witness :
    wEmpty wEnv.uuid = none
    ∧ ¬ wEnv.uuid = ""
    ∧ (chat_endpoint wEnv wEmpty { message := "hello", session_id := some "" }).response.session_id
        = wEnv.uuid
    ∧ (∃ s, (chat_endpoint wEnv wEmpty { message := "hello", session_id := some "" }).store wEnv.uuid
          = some s ∧ s.created_at = wEnv.now0
          ∧ s.message_history
              = [{ role := "user", content := "hello", timestamp := wEnv.now1 },
                 { role := "assistant"
                   content := (chat_endpoint wEnv wEmpty
                       { message := "hello", session_id := some "" }).response.response
                   timestamp := wEnv.now2 }])
    ∧ (chat_endpoint wEnv wEmpty { message := "hello", session_id := some "" }).store ""
        = wEmpty "" :=
  ⟨by decide, by decide,
   (chat_empty_session_id wEnv wEmpty "hello").2.1,
   (chat_empty_session_id wEnv wEmpty "hello").2.2.1 (by decide),
   (chat_empty_session_id wEnv wEmpty "hello").2.2.2 (by decide)⟩

end OveloAI
